import Mathlib

/-!
A shallow embedding of the OpenVPN connection supervisor
(`src/OVPN_Client.py`): the process-registry file, the capture files, the
connect rendezvous between the readiness signal, the timeout timer and the
cancellation handler, and the escalating disconnect protocol.

File-system state is the triple of the three transient artifacts (registry
pid file, stdout capture, stderr capture), each an `Option String` holding
the file content when the file exists.  External, non-deterministic facts
(whether passwordless sudo is available, whether the supervised process is
alive and exits within the wait bounds, what it wrote on its output
streams) are parameters gathered in an environment record.  Python string
primitives used by the source (`str.strip`, `str.replace`, `int(...)`) are
re-implemented over `List Char` so that every definition evaluates inside
the kernel.
-/

namespace OVPN

/-- Registry file path: `Path(gettempdir()) / "openvpnclient.pid"`, with the
temporary directory modelled as `/tmp`. -/
def PID_FILE : String := "/tmp/openvpnclient.pid"

/-- Stderr capture file path. -/
def STDERR_FILE : String := "/tmp/openvpnclient.stderr"

/-- Stdout capture file path. -/
def STDOUT_FILE : String := "/tmp/openvpnclient.stdout"

/-- Status codes of the client (`class Status(Enum)`). -/
inductive Status
  | connected
  | idle
  | userCancelled
  | connectionTimeout
deriving DecidableEq, Repr

/-- The Python exception kinds raised by the module, each carrying the
message string (messages are modelled without quote characters). -/
inductive PyError
  | valueError (msg : String)
  | fileNotFoundError (msg : String)
  | runtimeError (msg : String)
  | connectionRefusedError (msg : String)
  | timeoutError (msg : String)
  | processLookupError (msg : String)
  | attributeError (msg : String)
  | psutilTimeoutExpired
  | keyboardInterrupt
deriving DecidableEq, Repr

/-- The three transient artifacts; `some c` means the file exists with
content `c`. -/
structure FS where
  pidFile : Option String
  stdoutFile : Option String
  stderrFile : Option String
deriving DecidableEq, Repr

/-- Whitespace characters stripped by Python `str.strip()`. -/
def isPyWhitespace (c : Char) : Bool :=
  c == ' ' || c == '\t' || c == '\n' || c == '\r' || c == '\x0b' || c == '\x0c'

/-- Drop the leading whitespace of a character list. -/
def dropLeading : List Char → List Char
  | [] => []
  | c :: cs => if isPyWhitespace c then dropLeading cs else c :: cs

/-- Python `str.strip()`. -/
def pyStrip (s : String) : String :=
  ⟨List.reverse (dropLeading (List.reverse (dropLeading s.data)))⟩

/-- Value of a decimal digit character. -/
def digitVal (c : Char) : Nat := c.toNat - 48

/-- Remaining digits of a Python integer literal: digits, with single
underscores allowed between digits. -/
def pyDigitsAux (acc : Nat) : List Char → Option Nat
  | [] => some acc
  | '_' :: c :: cs =>
    if c.isDigit then pyDigitsAux (acc * 10 + digitVal c) cs else none
  | c :: cs =>
    if c.isDigit then pyDigitsAux (acc * 10 + digitVal c) cs else none

/-- Digit part of a Python integer literal (must be non-empty and start
with a digit). -/
def pyDigits : List Char → Option Nat
  | c :: cs => if c.isDigit then pyDigitsAux (digitVal c) cs else none
  | [] => none

/-- Python `int(s)` for base 10: strip, optional sign, digits; `none`
models the `ValueError` raised on any other input. -/
def parsePyInt (s : String) : Option Int :=
  match (pyStrip s).data with
  | '+' :: cs => (pyDigits cs).map (fun n => (n : Int))
  | '-' :: cs => (pyDigits cs).map (fun n => -(n : Int))
  | cs => (pyDigits cs).map (fun n => (n : Int))

/-- Does `p` begin the list `l`. -/
def listStartsWith : List Char → List Char → Bool
  | [], _ => true
  | _ :: _, [] => false
  | p :: ps, c :: cs => p == c && listStartsWith ps cs

/-- Remove every (leftmost, non-overlapping) occurrence of the pattern
`pat` from a character list, with explicit fuel (each step consumes at
least one character, so fuel equal to the length of the list suffices). -/
def stripPatAux (pat : List Char) : Nat → List Char → List Char
  | _, [] => []
  | 0, l => l
  | fuel + 1, c :: cs =>
    if listStartsWith pat (c :: cs) ∧ pat ≠ [] then
      stripPatAux pat fuel (List.drop (pat.length - 1) cs)
    else
      c :: stripPatAux pat fuel cs

/-- Remove every (leftmost, non-overlapping) occurrence of the pattern
`pat` from a character list: Python `s.replace(pat, "")`. -/
def stripPat (pat l : List Char) : List Char := stripPatAux pat l.length l

/-- Python `s.replace(pat, "")`. -/
def pyReplaceEmpty (s pat : String) : String := ⟨stripPat pat.data s.data⟩

/-- Does `hay` contain `ned` as a contiguous substring. -/
def listContainsSub (ned : List Char) : List Char → Bool
  | [] => ned.isEmpty
  | c :: cs => listStartsWith ned (c :: cs) || listContainsSub ned cs

/-- Substring containment over strings. -/
def containsSubstr (hay ned : String) : Bool := listContainsSub ned.data hay.data

/-- Message of the ValueError raised by `int(...)` on a bad literal
(content elided). -/
def intParseErrMsg : String := "invalid literal for int() with base 10"

/-- Model of `OpenVPNClient._get_pid`: read the registry file; `-1` when the file is
absent (`FileNotFoundError` branch); a `ValueError` is re-raised when the
content is not an integer. -/
def get_pid (fs : FS) : Except PyError Int :=
  match fs.pidFile with
  | none => .ok (-1)
  | some content =>
    match parsePyInt content with
    | some n => .ok n
    | none => .error (.valueError intParseErrMsg)

/-- Model of `OpenVPNClient._cleanup`: unlink the three artifacts, each in its own
try/except.  Faithful to the source, the first except block appends to
`err_msg` with `+=` while the second and third *assign* with `=`,
discarding the message built so far. -/
def cleanup (fs : FS) : FS × Except PyError Unit :=
  let errMsg0 := "File(s) non-existent:"
  let p1 : Bool × String :=
    match fs.pidFile with
    | some _ => (false, errMsg0)
    | none => (true, errMsg0 ++ "\n - " ++ PID_FILE)
  let p2 : Bool × String :=
    match fs.stderrFile with
    | some _ => p1
    | none => (true, "\n - " ++ STDERR_FILE)
  let p3 : Bool × String :=
    match fs.stdoutFile with
    | some _ => p2
    | none => (true, "\n - " ++ STDOUT_FILE)
  let fs' : FS := ⟨none, none, none⟩
  if p3.1 then (fs', .error (.fileNotFoundError p3.2)) else (fs', .ok ())

/-- The known-benign stderr line filtered out before classification (the
source literal has an apostrophe in `Cant`, elided here). -/
def benignStderr : String :=
  "ifconfig: ioctl (SIOCDIFADDR): Cant assign requested address"

/-- Model of `OpenVPNClient._on_process_exit`: wait for the process (a timeout of
the wait raises `psutil.TimeoutExpired`), read both capture files, run
`_cleanup`, then classify the captured stderr, raising
`ConnectionRefusedError` when anything other than the benign line is
present.  The parameter `exitsWithin` says whether the process exits
within the wait bound. -/
def on_process_exit (exitsWithin : Bool) (fs : FS) : FS × Except PyError Unit :=
  if exitsWithin then
    match fs.stderrFile, fs.stdoutFile with
    | some stderrRaw, some stdoutRaw =>
      let stderr0 := pyStrip stderrRaw
      let stdout := pyStrip stdoutRaw
      let (fs', cres) := cleanup fs
      match cres with
      | .error e => (fs', .error e)
      | .ok _ =>
        let stderr := pyReplaceEmpty stderr0 benignStderr
        if stderr = "" then (fs', .ok ())
        else
          (fs', .error (.connectionRefusedError
            ("Process exited" ++ "error/output:" ++ "\nSTDOUT:\n" ++ stdout
              ++ "\nSTDERR:\n" ++ stderr)))
    | _, _ => (fs, .error (.fileNotFoundError "capture file missing"))
  else
    (fs, .error .psutilTimeoutExpired)

/-- Environment facts a connect/disconnect run depends on. -/
structure Env where
  /-- whether `sudo -n true` succeeds (passwordless sudo). -/
  passwordlessSudo : Bool
  /-- the environment variable SUDO_PASSWORD is set. -/
  sudoPasswordSet : Bool
  /-- pid of the spawned openvpn process. -/
  spawnedPid : Int
  /-- whether `psutil.Process(pid)` resolves at disconnect time. -/
  procAliveAtDisconnect : Bool
  /-- the process exits within the first (10 second) wait bound. -/
  exitsWithin10 : Bool
  /-- the process exits within the second (5 second) wait bound. -/
  exitsWithin5 : Bool
  /-- eventual content of the stdout capture file. -/
  stdoutContent : String
  /-- eventual content of the stderr capture file. -/
  stderrContent : String

/-- Model of `OpenVPNClient._must_supply_password`: `false` on passwordless sudo;
otherwise `true` when SUDO_PASSWORD is set, else a `ValueError`. -/
def must_supply_password (env : Env) : Except PyError Bool :=
  if env.passwordlessSudo then .ok false
  else if env.sudoPasswordSet then .ok true
  else .error (.valueError "Environment variable SUDO_PASSWORD must be set")

/-- Model of `OpenVPNClient.disconnect`: read the registry, resolve the process,
probe the privilege strategy, spawn the graceful `sudo kill`, and wait via
`_on_process_exit` with bound 10; on `psutil.TimeoutExpired` spawn the
forceful `sudo kill -INT` and wait again with bound 5.

When a password must be supplied, the source executes
`process.stdin.write(...)` where `process` is the `psutil.Process` handle
of the supervised process (not the `Popen` of the kill command, which is
discarded); `psutil.Process` has no `stdin` attribute, so this raises
`AttributeError` right after the graceful kill is spawned, before any
wait. -/
def disconnect (env : Env) (fs : FS) : FS × Except PyError Unit :=
  match get_pid fs with
  | .error e => (fs, .error e)
  | .ok pid =>
    if pid = -1 then
      (fs, .error (.processLookupError "No ongoing connection found (pid not registered)"))
    else if !env.procAliveAtDisconnect then
      (fs, .error (.processLookupError "Process has already exited"))
    else
      match must_supply_password env with
      | .error e => (fs, .error e)
      | .ok mustSupply =>
        if mustSupply then
          (fs, .error (.attributeError "Process object has no attribute stdin"))
        else
          match on_process_exit env.exitsWithin10 fs with
          | (fs1, .ok u) => (fs1, .ok u)
          | (fs1, .error .psutilTimeoutExpired) => on_process_exit env.exitsWithin5 fs1
          | (fs1, .error e) => (fs1, .error e)

/-- Which of the armed listeners resolves the rendezvous of one connect
attempt (the cancel outcomes presuppose `sigint_disconnect=True`). -/
inductive RaceOutcome
  /-- the readiness signal (SIGUSR1) fires first and no cancellation
  arrives before `connect` returns. -/
  | readiness
  /-- the timeout timer fires first. -/
  | timerFired
  /-- a SIGINT is delivered before any readiness signal. -/
  | cancelBeforeReady
  /-- the readiness signal fires first and a SIGINT is delivered after it
  but before `connect` returns. -/
  | cancelAfterReady
deriving DecidableEq, Repr

/-- Observable outcome of one `connect` call. -/
structure ConnectResult where
  /-- file-system state when `connect` returns or raises. -/
  fs : FS
  /-- whether the openvpn process was spawned. -/
  spawned : Bool
  /-- value of `self.status` when `connect` returns or raises. -/
  status : Status
  /-- outcome: `.ok` on a normal return, `.error` for the raised exception. -/
  result : Except PyError Unit
deriving Repr

/-- Model of `OpenVPNClient.connect`: precondition check on the registry, privilege
probe, spawn (which truncates/creates both capture files and then writes
the pid to the registry file; the capture files are modelled as holding
their eventual content), then the rendezvous.

Branches, from the source handlers and the status switch after the lock is
re-acquired:
* readiness: `on_connected` sets `CONNECTED`; the main path logs and
  returns.
* timer: `on_connect_timeout` sets `CONNECTION_TIMEOUT`; the main path
  runs `disconnect()` and then raises `TimeoutError`; an exception raised
  by `disconnect()` itself propagates instead.
* cancel before readiness: `on_user_cancelled` releases the lock, sets
  `USER_CANCELLED` and raises `KeyboardInterrupt`, which propagates from
  the interrupted lock acquisition in the main thread.
* cancel after readiness: `on_user_cancelled` sees `CONNECTED`, runs
  `disconnect()`, then sets `USER_CANCELLED` and raises
  `KeyboardInterrupt`; if `disconnect()` raises, that exception propagates
  and the status write never happens. -/
def connect (env : Env) (outcome : RaceOutcome) (connectTimeout : Int) (fs : FS) :
    ConnectResult :=
  match get_pid fs with
  | .error e => ⟨fs, false, .idle, .error e⟩
  | .ok pid =>
    if pid ≠ -1 then
      ⟨fs, false, .idle, .error (.connectionRefusedError "Already connected")⟩
    else
      match must_supply_password env with
      | .error e => ⟨fs, false, .idle, .error e⟩
      | .ok _ =>
        let fs1 : FS :=
          ⟨some (toString env.spawnedPid), some env.stdoutContent, some env.stderrContent⟩
        match outcome with
        | .readiness => ⟨fs1, true, .connected, .ok ()⟩
        | .timerFired =>
          let (fs2, dres) := disconnect env fs1
          match dres with
          | .ok _ =>
            ⟨fs2, true, .connectionTimeout,
              .error (.timeoutError
                ("Did not connect in " ++ toString connectTimeout ++ " seconds"))⟩
          | .error e => ⟨fs2, true, .connectionTimeout, .error e⟩
        | .cancelBeforeReady => ⟨fs1, true, .userCancelled, .error .keyboardInterrupt⟩
        | .cancelAfterReady =>
          let (fs2, dres) := disconnect env fs1
          match dres with
          | .ok _ => ⟨fs2, true, .userCancelled, .error .keyboardInterrupt⟩
          | .error e => ⟨fs2, true, .connected, .error e⟩

/-- Events delivered to the handlers armed by `_setup_handlers`. -/
inductive HEvent
  /-- the readiness signal SIGUSR1 (handler `on_connected`). -/
  | sigusr1
  /-- expiry of the connect-timeout timer (handler `on_connect_timeout`). -/
  | timerExpiry
  /-- SIGINT (handler `on_user_cancelled`). -/
  | sigint
deriving DecidableEq, Repr

/-- Handler-visible state of one attempt: the current status and the trace
of values written to `self.status`, in order. -/
structure HState where
  status : Status
  mutations : List Status
deriving DecidableEq, Repr

/-- Write a value to `self.status`, recording the mutation. -/
def writeStatus (s : HState) (v : Status) : HState := ⟨v, s.mutations ++ [v]⟩

/-- Effect of one handler on the status, from `_setup_handlers`:
`on_connected` writes `CONNECTED`; `on_connect_timeout` writes
`CONNECTION_TIMEOUT`; `on_user_cancelled` first runs `disconnect()` when
the status is already `CONNECTED` (the flag says whether that call raises,
in which case the status write is never reached) and then writes
`USER_CANCELLED`. -/
def fireEvent (disconnectRaises : Bool) (s : HState) (e : HEvent) : HState :=
  match e with
  | .sigusr1 => writeStatus s .connected
  | .timerExpiry => writeStatus s .connectionTimeout
  | .sigint =>
    if s.status = .connected ∧ disconnectRaises = true then s
    else writeStatus s .userCancelled

/-- Run a sequence of delivered events through the handlers. -/
def runEvents (disconnectRaises : Bool) (s : HState) : List HEvent → HState
  | [] => s
  | e :: es => runEvents disconnectRaises (fireEvent disconnectRaises s e) es

/-- Handler state at the start of an attempt (`status: Status = Status.IDLE`). -/
def initialHState : HState := ⟨.idle, []⟩

/-- The status value each handler writes when it fires. -/
def evStatus : HEvent → Status
  | .sigusr1 => .connected
  | .timerExpiry => .connectionTimeout
  | .sigint => .userCancelled

/-- Environment facts `OpenVPNClient.__init__` consults. -/
structure InitEnv where
  /-- result of `Path(ovpn_file).exists()`. -/
  fileExists : Bool
  /-- result of `Path(ovpn_file).is_file()`. -/
  isRegularFile : Bool
  /-- whether `shutil.which("openvpn")` resolves. -/
  openvpnOnPath : Bool

/-- Configuration fields stored by a successful construction. -/
structure Config where
  ovpnFile : String
  connectTimeout : Int
deriving DecidableEq, Repr

/-- Model of `OpenVPNClient.__init__`: validate the timeout, the config file and
the openvpn binary, in that order, then store the fields. -/
def clientInit (env : InitEnv) (ovpnFile : String) (connectTimeout : Int) :
    Except PyError Config :=
  if connectTimeout ≤ 0 then
    .error (.valueError "Connection timeout must be at least 1 second")
  else if !(env.fileExists && env.isRegularFile) then
    .error (.fileNotFoundError ("File " ++ ovpnFile ++ " not found, or is not a file"))
  else if !env.openvpnOnPath then
    .error (.runtimeError "OpenVPN must be installed and available on the PATH")
  else
    .ok ⟨ovpnFile, connectTimeout⟩

/-- Discriminator: is the outcome a raised TimeoutError. -/
def isTimeoutError : Except PyError Unit → Bool
  | .error (.timeoutError _) => true
  | _ => false

/-- Discriminator: is the outcome a normal return. -/
def isOk : Except PyError Unit → Bool
  | .ok _ => true
  | _ => false

/-- Discriminator: is the outcome a raised KeyboardInterrupt. -/
def isKeyboardInterrupt : Except PyError Unit → Bool
  | .error .keyboardInterrupt => true
  | _ => false

/-! Concrete environments used by witnesses and counterexamples. -/

/-- Passwordless sudo, live process, exits within the first bound, clean
capture output. -/
def goodEnv : Env := ⟨true, false, 4242, true, true, true, "", ""⟩

/-- Like `goodEnv` but the supervised process wrote on stderr. -/
def dirtyStderrEnv : Env := ⟨true, false, 4242, true, true, true, "", "boom"⟩

/-- Sudo requires a password and SUDO_PASSWORD is set. -/
def passwordEnv : Env := ⟨false, true, 4242, true, true, true, "", ""⟩

/-- No artifact exists. -/
def emptyFS : FS := ⟨none, none, none⟩

/-- Mutation trace of the handlers, generalized over the starting state:
every delivered event appends exactly the status value it writes (when the
teardown inside the cancellation handler does not raise). -/
theorem runEvents_mutations (t : List HEvent) :
    ∀ s : HState, (runEvents false s t).mutations = s.mutations ++ t.map evStatus := by
  induction t with
  | nil => intro s; simp [runEvents]
  | cons e es ih =>
    intro s
    rw [runEvents, ih]
    cases e <;> simp [fireEvent, writeStatus, evStatus]

/-- C1 (amended): the ConnectionStatus starts as Idle, and each of the
readiness, timeout and cancellation handlers that fires during an attempt
writes the status exactly once, in firing order — so the first event to
fire sets it, and a cancellation delivered after the readiness signal has
already set Connected overwrites it a second time with UserCancelled. -/
theorem status_mutation_trace (t : List HEvent) :
    initialHState.status = .idle ∧
    (runEvents false initialHState t).mutations = t.map evStatus := by
  refine ⟨rfl, ?_⟩
  rw [runEvents_mutations]
  simp [initialHState]

/-- C1 counterexample: when the readiness signal fires first and an
external cancellation is delivered afterwards during the same attempt, the
status is mutated twice (Connected, then UserCancelled), refuting that it
is mutated exactly once and never changed after reaching a terminal
value. -/
theorem status_double_mutation_on_late_cancel :
    (runEvents false initialHState [HEvent.sigusr1, HEvent.sigint]).mutations
        = [Status.connected, Status.userCancelled] ∧
    (runEvents false initialHState [HEvent.sigusr1, HEvent.sigint]).mutations.length ≠ 1 := by
  decide

/-- C6: with the registry holding a live pid and sudo requiring a
password, `disconnect` raises AttributeError right after spawning the
graceful kill — the credential write targets the psutil handle of the
supervised process, which has no input channel — so neither wait bound nor
the forceful step is ever reached and the artifacts survive. -/
theorem disconnect_password_write_attribute_error :
    disconnect passwordEnv ⟨some "321", some "", some ""⟩ =
      (⟨some "321", some "", some ""⟩,
        .error (.attributeError "Process object has no attribute stdin")) := by
  rfl

/-- C7: with the registry file and the stdout capture file both already
absent (stderr capture present), `cleanup` raises, but its report names
only the stdout capture file: the message built for the registry file is
overwritten, so the report does not name every absent artifact. -/
theorem cleanup_report_drops_missing_artifact :
    cleanup ⟨none, none, some "x"⟩ =
      (⟨none, none, none⟩, .error (.fileNotFoundError ("\n - " ++ STDOUT_FILE))) ∧
    containsSubstr ("\n - " ++ STDOUT_FILE) PID_FILE = false := by
  exact ⟨rfl, by decide⟩

/-- C9: construction succeeds iff the connect-timeout is positive, the
config path exists and is a regular file, and the openvpn binary is on the
PATH; each failure raises the corresponding error (ValueError for the
timeout, FileNotFoundError for the config file, RuntimeError for the
binary, checked in that order), and a successful construction stores
exactly the given configuration fields, which no operation of the model
ever rewrites. -/
theorem clientInit_validation (env : InitEnv) (f : String) (t : Int) :
    ((∃ c, clientInit env f t = .ok c) ↔
      (0 < t ∧ env.fileExists = true ∧ env.isRegularFile = true ∧
        env.openvpnOnPath = true)) ∧
    (t ≤ 0 →
      clientInit env f t =
        .error (.valueError "Connection timeout must be at least 1 second")) ∧
    (0 < t → (env.fileExists = false ∨ env.isRegularFile = false) →
      clientInit env f t =
        .error (.fileNotFoundError ("File " ++ f ++ " not found, or is not a file"))) ∧
    (0 < t → env.fileExists = true → env.isRegularFile = true →
      env.openvpnOnPath = false →
      clientInit env f t =
        .error (.runtimeError "OpenVPN must be installed and available on the PATH")) ∧
    (∀ c, clientInit env f t = .ok c → c.ovpnFile = f ∧ c.connectTimeout = t) := by
  obtain ⟨fe, irf, op⟩ := env
  unfold clientInit
  by_cases ht : t ≤ 0
  · have ht2 : ¬ (0 < t) := by omega
    cases fe <;> cases irf <;> cases op <;> simp_all
  · have ht2 : 0 < t := by omega
    rw [if_neg ht]
    cases fe <;> cases irf <;> cases op <;> simp_all

/-- C9 witness: a positive timeout, an existing regular config file and a
resolvable binary make construction succeed. -/
theorem clientInit_validation_witness :
    ∃ c, clientInit ⟨true, true, true⟩ "client.ovpn" 5 = .ok c :=
  (clientInit_validation ⟨true, true, true⟩ "client.ovpn" 5).1.mpr (by decide)

/-- C10: when the registry file exists but its content is not a decimal
integer, `_get_pid` raises ValueError rather than returning the NotFound
value, and both `connect` and `disconnect` surface that ValueError instead
of AlreadyConnected or NoActiveConnection. -/
theorem invalid_registry_content_value_error (s : String) (env : Env)
    (o : RaceOutcome) (cT : Int) (so se : Option String)
    (hbad : parsePyInt s = none) :
    get_pid ⟨some s, so, se⟩ = .error (.valueError intParseErrMsg) ∧
    (connect env o cT ⟨some s, so, se⟩).result = .error (.valueError intParseErrMsg) ∧
    (disconnect env ⟨some s, so, se⟩).2 = .error (.valueError intParseErrMsg) := by
  have hg : get_pid ⟨some s, so, se⟩ = .error (.valueError intParseErrMsg) := by
    unfold get_pid
    simp [hbad]
  refine ⟨hg, ?_, ?_⟩
  · unfold connect
    rw [hg]
  · unfold disconnect
    rw [hg]

/-- C10 witness: the content `abc` is not a decimal integer, and every
entry point surfaces the ValueError. -/
theorem invalid_registry_content_value_error_witness :
    get_pid ⟨some "abc", none, none⟩ = .error (.valueError intParseErrMsg) ∧
    (connect goodEnv .readiness 5 ⟨some "abc", none, none⟩).result =
      .error (.valueError intParseErrMsg) ∧
    (disconnect goodEnv ⟨some "abc", none, none⟩).2 =
      .error (.valueError intParseErrMsg) :=
  invalid_registry_content_value_error "abc" goodEnv .readiness 5 none none (by decide)

/-- C4: whenever the registry holds an entry (`_get_pid` returns a pid
other than the NotFound value `-1`), `connect` raises AlreadyConnected
with the file system untouched, nothing spawned and the status still Idle;
in particular a second `connect` right after a successful one raises
AlreadyConnected. -/
theorem connect_requires_empty_registry :
    (∀ (env : Env) (o : RaceOutcome) (cT : Int) (fs : FS) (n : Int),
      get_pid fs = .ok n → n ≠ -1 →
      connect env o cT fs =
        ⟨fs, false, .idle, .error (.connectionRefusedError "Already connected")⟩) ∧
    (∀ (env env2 : Env) (o2 : RaceOutcome) (cT cT2 : Int) (so se : Option String)
      (msp : Bool),
      parsePyInt (toString env.spawnedPid) = some env.spawnedPid →
      env.spawnedPid ≠ -1 →
      must_supply_password env = .ok msp →
      (connect env .readiness cT ⟨none, so, se⟩).result = .ok () ∧
      (connect env2 o2 cT2 (connect env .readiness cT ⟨none, so, se⟩).fs).result =
        .error (.connectionRefusedError "Already connected")) := by
  constructor
  · intro env o cT fs n h hn
    unfold connect
    rw [h]
    simp [hn]
  · intro env env2 o2 cT cT2 so se msp hparse hpid hprobe
    have h1 : connect env .readiness cT ⟨none, so, se⟩ =
        ⟨⟨some (toString env.spawnedPid), some env.stdoutContent,
            some env.stderrContent⟩, true, .connected, .ok ()⟩ := by
      unfold connect
      simp [get_pid, hprobe]
    rw [h1]
    refine ⟨rfl, ?_⟩
    unfold connect
    simp [get_pid, hparse, hpid]

/-- C4 witness: with an empty registry the first `connect` succeeds and
the immediately following `connect` raises AlreadyConnected. -/
theorem connect_requires_empty_registry_witness :
    (connect goodEnv .readiness 5 ⟨none, none, none⟩).result = .ok () ∧
    (connect goodEnv .readiness 5 (connect goodEnv .readiness 5 ⟨none, none, none⟩).fs).result =
      .error (.connectionRefusedError "Already connected") :=
  connect_requires_empty_registry.2 goodEnv goodEnv .readiness 5 5 none none false
    (by decide) (by decide) rfl

/-- Like `goodEnv` but the process survives the first wait bound and exits
only within the second, forceful one. -/
def slowExitEnv : Env := ⟨true, false, 4242, true, false, true, "", ""⟩

/-- After a completed wait, `_on_process_exit` leaves the file system in
the post-cleanup state (all three artifacts removed), whatever the stderr
classification decides. -/
theorem on_process_exit_fs_cleared (pf : Option String) (soS seS : String) :
    (on_process_exit true ⟨pf, some soS, some seS⟩).1 = ⟨none, none, none⟩ := by
  unfold on_process_exit cleanup
  cases pf
  · simp
  · simp
    split <;> rfl

/-- On an empty file system, `_on_process_exit` leaves the file system
empty. -/
theorem on_process_exit_empty_fs (b : Bool) :
    (on_process_exit b ⟨none, none, none⟩).1 = ⟨none, none, none⟩ := by
  cases b <;> rfl

/-- Helper behind C5 and C8: whenever disconnect reaches a completed wait
(passwordless sudo, live process, exit within the first bound or within
the second after a failed first), the three artifacts are removed,
regardless of the captured stderr content. -/
theorem disconnect_clears_fs (env : Env) (pidS soS seS : String) (p : Int)
    (hparse : parsePyInt pidS = some p) (hpid : ¬ p = -1)
    (halive : env.procAliveAtDisconnect = true)
    (hpw : env.passwordlessSudo = true)
    (hexit : env.exitsWithin10 = true ∨
      (env.exitsWithin10 = false ∧ env.exitsWithin5 = true)) :
    (disconnect env ⟨some pidS, some soS, some seS⟩).1 = ⟨none, none, none⟩ := by
  unfold disconnect
  have hg : get_pid ⟨some pidS, some soS, some seS⟩ = .ok p := by
    unfold get_pid
    simp [hparse]
  rw [hg]
  have hm : must_supply_password env = .ok false := by
    unfold must_supply_password
    simp [hpw]
  simp only [hpid, if_false, halive, Bool.not_true, hm]
  rcases hexit with h10 | ⟨h10, h5⟩
  · rw [h10]
    rcases hpe : on_process_exit true ⟨some pidS, some soS, some seS⟩ with ⟨fs1, r⟩
    have hfs1 : fs1 = ⟨none, none, none⟩ := by
      have := on_process_exit_fs_cleared (some pidS) soS seS
      rw [hpe] at this
      exact this
    subst hfs1
    cases r with
    | ok u => simp
    | error e =>
      cases e <;> simp [on_process_exit_empty_fs]
  · rw [h10, h5]
    have hpe : on_process_exit false ⟨some pidS, some soS, some seS⟩ =
        (⟨some pidS, some soS, some seS⟩, .error .psutilTimeoutExpired) := rfl
    rw [hpe]
    simp [on_process_exit_fs_cleared]

/-- C5: once the supervised process has exited during `disconnect` —
either within the graceful 10-second bound or within the forceful 5-second
bound after the graceful wait expired — cleanup runs unconditionally: the
registry entry and both capture files are removed, for every captured
stderr content, whether or not the classification then raises
AbnormalTermination. -/
theorem cleanup_unconditional_after_exit (env : Env) (pidS soS seS : String)
    (p : Int)
    (hparse : parsePyInt pidS = some p) (hpid : ¬ p = -1)
    (halive : env.procAliveAtDisconnect = true)
    (hpw : env.passwordlessSudo = true)
    (hexit : env.exitsWithin10 = true ∨
      (env.exitsWithin10 = false ∧ env.exitsWithin5 = true)) :
    (disconnect env ⟨some pidS, some soS, some seS⟩).1 = ⟨none, none, none⟩ :=
  disconnect_clears_fs env pidS soS seS p hparse hpid halive hpw hexit

/-- C5 witness: both the graceful path and the forceful path remove all
three artifacts, here with a non-benign stderr capture that makes the
classification raise. -/
theorem cleanup_unconditional_after_exit_witness :
    (disconnect goodEnv ⟨some "4242", some "out", some "oops"⟩).1 =
      ⟨none, none, none⟩ ∧
    (disconnect slowExitEnv ⟨some "4242", some "out", some "oops"⟩).1 =
      ⟨none, none, none⟩ :=
  ⟨cleanup_unconditional_after_exit goodEnv "4242" "out" "oops" 4242 (by decide)
      (by decide) rfl rfl (Or.inl rfl),
    cleanup_unconditional_after_exit slowExitEnv "4242" "out" "oops" 4242 (by decide)
      (by decide) rfl rfl (Or.inr ⟨rfl, rfl⟩)⟩

/-- The only exception `_get_pid` raises is the int-parse ValueError. -/
theorem get_pid_error_is_valueError (fs : FS) (e : PyError)
    (h : get_pid fs = .error e) : e = .valueError intParseErrMsg := by
  unfold get_pid at h
  rcases fs with ⟨pf, so, se⟩
  cases pf with
  | none => simp at h
  | some c =>
    dsimp only at h
    cases hp : parsePyInt c <;> rw [hp] at h <;> simp_all

/-- The only exception the privilege probe raises is the missing-credential
ValueError. -/
theorem must_supply_password_error_is_valueError (env : Env) (e : PyError)
    (h : must_supply_password env = .error e) :
    e = .valueError "Environment variable SUDO_PASSWORD must be set" := by
  unfold must_supply_password at h
  split at h <;> simp_all
  split at h <;> simp_all

/-- Lemma: `_on_process_exit` never produces a TimeoutError (its wait expiry is
the distinct psutil.TimeoutExpired). -/
theorem on_process_exit_no_timeoutError (b : Bool) (fs : FS) :
    isTimeoutError (on_process_exit b fs).2 = false := by
  rcases fs with ⟨pf, so, se⟩
  unfold on_process_exit
  cases b <;> cases so <;> cases se <;> cases pf <;>
    simp [cleanup] <;>
      first
        | rfl
        | (split <;> rfl)

/-- Lemma: `disconnect` never produces a TimeoutError: every path raises one of
ValueError, ProcessLookupError, AttributeError, psutil.TimeoutExpired,
ConnectionRefusedError or FileNotFoundError, or returns normally. -/
theorem disconnect_no_timeoutError (env : Env) (fs : FS) :
    isTimeoutError (disconnect env fs).2 = false := by
  unfold disconnect
  rcases hg : get_pid fs with e | pid
  · have he := get_pid_error_is_valueError fs e hg
    subst he
    rfl
  · by_cases hpid : pid = -1
    · simp [hpid, isTimeoutError]
    · simp only [hpid, if_false]
      cases halive : env.procAliveAtDisconnect
      · simp [isTimeoutError]
      · simp only [Bool.not_true, Bool.false_eq_true, if_false]
        rcases hm : must_supply_password env with me | mb
        · rw [must_supply_password_error_is_valueError env me hm]
          rfl
        · cases mb
          · simp only [if_false]
            rcases hpe : on_process_exit env.exitsWithin10 fs with ⟨fs1, r⟩
            cases r with
            | ok u => simp [isTimeoutError]
            | error e =>
              have hshape := on_process_exit_no_timeoutError env.exitsWithin10 fs
              rw [hpe] at hshape
              cases e <;>
                first
                  | rfl
                  | exact on_process_exit_no_timeoutError env.exitsWithin5 fs1
                  | simp [isTimeoutError] at hshape
          · simp [isTimeoutError]

/-- C2 (amended): when the timer fires first, `connect` runs disconnect
on the spawned process; when that teardown completes without raising
(live process, exit within the graceful bound, clean stderr), the registry
entry and both capture files are removed and `connect` fails with
TimeoutError naming the configured bound; when the teardown raises, its
exception propagates to the caller instead of the TimeoutError. -/
theorem connect_timeout_teardown (env : Env) (cT : Int) (so se : Option String)
    (hparse : parsePyInt (toString env.spawnedPid) = some env.spawnedPid)
    (hpid : ¬ env.spawnedPid = -1)
    (hpw : env.passwordlessSudo = true)
    (halive : env.procAliveAtDisconnect = true)
    (hexit : env.exitsWithin10 = true)
    (hclean : pyReplaceEmpty (pyStrip env.stderrContent) benignStderr = "") :
    connect env .timerFired cT ⟨none, so, se⟩ =
      ⟨⟨none, none, none⟩, true, .connectionTimeout,
        .error (.timeoutError
          ("Did not connect in " ++ toString cT ++ " seconds"))⟩ := by
  have hm : must_supply_password env = .ok false := by
    unfold must_supply_password
    simp [hpw]
  have hd : disconnect env
      ⟨some (toString env.spawnedPid), some env.stdoutContent,
        some env.stderrContent⟩ = (⟨none, none, none⟩, .ok ()) := by
    unfold disconnect
    have hg : get_pid ⟨some (toString env.spawnedPid), some env.stdoutContent,
        some env.stderrContent⟩ = .ok env.spawnedPid := by
      unfold get_pid
      simp [hparse]
    rw [hg]
    simp only [hpid, if_false, halive, Bool.not_true, Bool.false_eq_true, hm]
    rw [hexit]
    unfold on_process_exit cleanup
    simp [hclean]
  unfold connect
  simp [get_pid, hm, hd]

/-- C2 counterexample: timer fires first, the process is torn down and the
registry is cleared, but because the captured stderr is non-benign the
teardown raises AbnormalTermination — `connect` surfaces that
ConnectionRefusedError, not the claimed ConnectTimeoutError. -/
theorem connect_timeout_not_timeout_error_on_dirty_stderr :
    (connect dirtyStderrEnv .timerFired 5 emptyFS).status = .connectionTimeout ∧
    isTimeoutError (connect dirtyStderrEnv .timerFired 5 emptyFS).result = false ∧
    (connect dirtyStderrEnv .timerFired 5 emptyFS).fs = ⟨none, none, none⟩ := by
  decide

/-- C2 witness: with a clean teardown the timeout attempt removes the
artifacts and raises TimeoutError. -/
theorem connect_timeout_teardown_witness :
    connect goodEnv .timerFired 7 ⟨none, none, none⟩ =
      ⟨⟨none, none, none⟩, true, .connectionTimeout,
        .error (.timeoutError
          ("Did not connect in " ++ toString (7 : Int) ++ " seconds"))⟩ :=
  connect_timeout_teardown goodEnv 7 none none (by decide) (by decide) rfl rfl rfl
    (by decide)

/-- C3 (amended): a cancellation delivered after the readiness signal has
set Connected but before `connect` returns makes the cancellation handler
tear the tunnel down; when that teardown completes without raising, the
registry entry is cleared before cancellation is reported and the caller
receives the KeyboardInterrupt cancellation indicator; when the teardown
raises, its exception propagates instead; and in every environment such an
attempt never returns success and never raises the generic TimeoutError. -/
theorem connect_cancel_after_ready_teardown (env : Env) (cT : Int)
    (so se : Option String)
    (hparse : parsePyInt (toString env.spawnedPid) = some env.spawnedPid)
    (hpid : ¬ env.spawnedPid = -1)
    (hpw : env.passwordlessSudo = true)
    (halive : env.procAliveAtDisconnect = true)
    (hexit : env.exitsWithin10 = true)
    (hclean : pyReplaceEmpty (pyStrip env.stderrContent) benignStderr = "") :
    connect env .cancelAfterReady cT ⟨none, so, se⟩ =
      ⟨⟨none, none, none⟩, true, .userCancelled, .error .keyboardInterrupt⟩ ∧
    (∀ (env2 : Env) (cT2 : Int) (fs2 : FS),
      isOk (connect env2 .cancelAfterReady cT2 fs2).result = false ∧
      isTimeoutError (connect env2 .cancelAfterReady cT2 fs2).result = false) := by
  constructor
  · have hm : must_supply_password env = .ok false := by
      unfold must_supply_password
      simp [hpw]
    have hd : disconnect env
        ⟨some (toString env.spawnedPid), some env.stdoutContent,
          some env.stderrContent⟩ = (⟨none, none, none⟩, .ok ()) := by
      unfold disconnect
      have hg : get_pid ⟨some (toString env.spawnedPid), some env.stdoutContent,
          some env.stderrContent⟩ = .ok env.spawnedPid := by
        unfold get_pid
        simp [hparse]
      rw [hg]
      simp only [hpid, if_false, halive, Bool.not_true, Bool.false_eq_true, hm]
      rw [hexit]
      unfold on_process_exit cleanup
      simp [hclean]
    unfold connect
    simp [get_pid, hm, hd]
  · intro env2 cT2 fs2
    unfold connect
    rcases hg : get_pid fs2 with e | pid
    · have he := get_pid_error_is_valueError fs2 e hg
      subst he
      exact ⟨rfl, rfl⟩
    · by_cases hpid2 : pid = -1
      · simp only [hpid2]
        rcases hm : must_supply_password env2 with me | mb
        · have hme := must_supply_password_error_is_valueError env2 me hm
          subst hme
          exact ⟨rfl, rfl⟩
        · rcases hd : disconnect env2
              ⟨some (toString env2.spawnedPid), some env2.stdoutContent,
                some env2.stderrContent⟩ with ⟨fs3, r⟩
          cases r with
          | ok u => simp [isOk, isTimeoutError]
          | error e2 =>
            have hshape := disconnect_no_timeoutError env2
              ⟨some (toString env2.spawnedPid), some env2.stdoutContent,
                some env2.stderrContent⟩
            rw [hd] at hshape
            refine ⟨by simp [isOk], ?_⟩
            simpa using hshape
      · simp [hpid2, isOk, isTimeoutError]

/-- C3 counterexample: cancellation after a successful connect with a
non-benign stderr capture — the tunnel is torn down and the registry
cleared, but the caller receives the AbnormalTermination of the teardown
(ConnectionRefusedError), not a cancellation indicator (and not success or
timeout either). -/
theorem connect_cancel_after_ready_not_cancel_error_on_dirty_stderr :
    isKeyboardInterrupt
        (connect dirtyStderrEnv .cancelAfterReady 5 emptyFS).result = false ∧
    isOk (connect dirtyStderrEnv .cancelAfterReady 5 emptyFS).result = false ∧
    isTimeoutError (connect dirtyStderrEnv .cancelAfterReady 5 emptyFS).result = false ∧
    (connect dirtyStderrEnv .cancelAfterReady 5 emptyFS).fs.pidFile = none := by
  decide

/-- C3 witness: a clean teardown makes the late-cancelled attempt clear
the registry and surface KeyboardInterrupt. -/
theorem connect_cancel_after_ready_teardown_witness :
    connect goodEnv .cancelAfterReady 9 ⟨none, none, none⟩ =
      ⟨⟨none, none, none⟩, true, .userCancelled, .error .keyboardInterrupt⟩ :=
  (connect_cancel_after_ready_teardown goodEnv 9 none none (by decide) (by decide)
    rfl rfl rfl (by decide)).1

/-- C8: a successful `connect` followed immediately by `disconnect`
(passwordless sudo, live process, exit within the graceful bound) leaves
the registry file and both capture files absent, whatever the process
wrote on its streams. -/
theorem connect_disconnect_roundtrip (env : Env) (cT : Int)
    (so se : Option String)
    (hparse : parsePyInt (toString env.spawnedPid) = some env.spawnedPid)
    (hpid : ¬ env.spawnedPid = -1)
    (hpw : env.passwordlessSudo = true)
    (halive : env.procAliveAtDisconnect = true)
    (hexit : env.exitsWithin10 = true) :
    (connect env .readiness cT ⟨none, so, se⟩).result = .ok () ∧
    (disconnect env (connect env .readiness cT ⟨none, so, se⟩).fs).1 =
      ⟨none, none, none⟩ := by
  have hm : must_supply_password env = .ok false := by
    unfold must_supply_password
    simp [hpw]
  have h1 : connect env .readiness cT ⟨none, so, se⟩ =
      ⟨⟨some (toString env.spawnedPid), some env.stdoutContent,
          some env.stderrContent⟩, true, .connected, .ok ()⟩ := by
    unfold connect
    simp [get_pid, hm]
  rw [h1]
  exact ⟨rfl, disconnect_clears_fs env (toString env.spawnedPid)
    env.stdoutContent env.stderrContent env.spawnedPid hparse hpid halive hpw
    (Or.inl hexit)⟩

/-- C8 witness: the round trip on a concrete good environment leaves no
artifact behind. -/
theorem connect_disconnect_roundtrip_witness :
    (connect goodEnv .readiness 5 ⟨none, none, none⟩).result = .ok () ∧
    (disconnect goodEnv (connect goodEnv .readiness 5 ⟨none, none, none⟩).fs).1 =
      ⟨none, none, none⟩ :=
  connect_disconnect_roundtrip goodEnv 5 none none (by decide) (by decide) rfl rfl rfl

end OVPN
